import Mathlib

/-!
# Chat client (`static/js/app.js`): conversation state, transcript and history view

A shallow embedding of the browser client.  The closure variables of the
`DOMContentLoaded` handler and the parts of the document the handlers touch
are gathered in one record, `Client`; every handler is a function on that
record.  A handler that awaits a network call takes the outcome of that call
as an argument (`Fetch`), and every call to `fetch` is recorded, in order, in
the field `requests`.

Conventions of the embedding:

* a `try`/`catch` block is a function into `Except Client Client`, where the
  error side carries the client as it is at the `throw`;
* handlers run to completion: no other handler is interleaved at an `await`;
* scroll offsets, focus and the SweetAlert dialogs are not represented;
* message texts and the content of the message input are sequences of code
  points: they are only trimmed, compared and escaped at code points below
  `0x10000`, where code points and UTF-16 code units agree;
* conversation titles are sequences of UTF-16 code units (`JSString`), since
  they are measured and cut by `length` and `substring`;
* the text content the browser gives an element built from markup is not
  computed here: the rename handlers take it as the argument `textOf`;
* a conversation id held by a history entry is an integer, so that
  `dataset.id` is its decimal string.
-/

namespace ChatClient

/-! ## JavaScript values and string helpers -/

/-- The values `currentConversationId` and a `conversation_id` field take:
`null`, `undefined` or an integer number. -/
inductive JSId where
  | null
  | undefined
  | num (n : Int)
  deriving DecidableEq, Repr

/-- JavaScript truthiness (`ToBoolean`) of such a value: `null`, `undefined`
and the number `0` are falsy. -/
def JSId.truthy : JSId → Bool
  | .null => false
  | .undefined => false
  | .num n => n != 0

/-- JavaScript `String(v)`. -/
def JSId.toJSString : JSId → String
  | .null => "null"
  | .undefined => "undefined"
  | .num n => toString n

/-- Code points removed by `String.prototype.trim`: ECMAScript `WhiteSpace`
and `LineTerminator`. -/
def isJSWhitespace (c : Char) : Bool :=
  [9, 10, 11, 12, 13, 32, 160, 5760, 8232, 8233, 8239, 8287, 12288, 65279].contains c.toNat
    || (8192 ≤ c.toNat && c.toNat ≤ 8202)

/-- `String.prototype.trim` on a list of code points. -/
def trimChars (l : List Char) : List Char :=
  ((l.dropWhile isJSWhitespace).reverse.dropWhile isJSWhitespace).reverse

/-- `s.trim()`. -/
def jsTrim (s : String) : String :=
  String.mk (trimChars s.toList)

/-- `text.replace(/</g, "&lt;").replace(/>/g, "&gt;")` (line 424). -/
def formatText (text : String) : String :=
  String.mk (text.toList.flatMap fun c =>
    if c = '<' then "&lt;".toList else if c = '>' then "&gt;".toList else [c])

/-- A JavaScript string as the sequence of its UTF-16 code units, each a
number below `65536`. -/
abbrev JSString := List Nat

/-- The UTF-16 code units of a code point: the code point itself below
`0x10000`, a high and a low surrogate above. -/
def utf16 (c : Char) : JSString :=
  if c.toNat < 65536 then [c.toNat]
  else [55296 + (c.toNat - 65536) / 1024, 56320 + (c.toNat - 65536) % 1024]

/-- The JavaScript string holding the given text. -/
def js (s : String) : JSString :=
  s.toList.flatMap utf16

/-- Code units removed by `String.prototype.trim`: the ECMAScript
`WhiteSpace` and `LineTerminator` code points, all below `0x10000`. -/
def isWhitespaceUnit (u : Nat) : Bool :=
  [9, 10, 11, 12, 13, 32, 160, 5760, 8232, 8233, 8239, 8287, 12288, 65279].contains u
    || (8192 ≤ u && u ≤ 8202)

/-- `t.trim()` on code units. -/
def trimUnits (t : JSString) : JSString :=
  ((t.dropWhile isWhitespaceUnit).reverse.dropWhile isWhitespaceUnit).reverse

/-- The value sanitization of a text `input`: line feeds and carriage
returns are stripped from a value assigned to it. -/
def stripNewlines (t : JSString) : JSString :=
  t.filter fun u => !(u == 10 || u == 13)

/-- `t.substring(0, 30) + (t.length > 30 ? '...' : '')` (lines 267 and 399):
`length` and `substring` count code units. -/
def truncateTitle (t : JSString) : JSString :=
  t.take 30 ++ (if t.length > 30 then js "..." else [])

/-- `t.replace(/\.\.\.$/, '')` (line 379): one trailing `...` is removed. -/
def stripEllipsis (t : JSString) : JSString :=
  match t.reverse with
  | 46 :: 46 :: 46 :: r => r.reverse
  | _ => t

/-! ## Network outcomes and payloads -/

/-- Outcome of `await fetch(...)` followed, where the handler does so, by
`await response.json()`. -/
inductive Fetch (α : Type) where
  /-- the promise returned by `fetch` rejects -/
  | rejected
  /-- a response arrives; `ok` is `response.ok`, `json` is the parsed body,
  `none` when `response.json()` rejects -/
  | response (ok : Bool) (json : Option α)
  deriving Repr

/-- A message object, from the server or built by `sendMessage`.  `text` is
`none` when the property is not a string (so `text.replace` throws). -/
structure Message where
  sender : String
  text : Option String
  deriving DecidableEq, Repr

/-- Body of `POST /api/chat`.  `reply` is `none` when it is not a string. -/
structure ChatData where
  reply : Option String
  conversation_id : JSId
  deriving DecidableEq, Repr

/-- An element of the body of `GET /api/history`. -/
structure Conversation where
  id : Int
  title : Option JSString
  deriving DecidableEq, Repr

/-- Body of `GET /api/conversation/{id}/messages`.  `pagination` is `none`
when the body has no `pagination` object, otherwise its `has_more`;
`messages` is `none` when the property is missing or `null`. -/
structure PageData where
  messages : Option (List Message)
  pagination : Option Bool
  deriving DecidableEq, Repr

/-- The calls to `fetch` made by the handlers embedded here. -/
inductive Request where
  /-- `POST /api/logout` -/
  | logout
  /-- `POST /api/chat` with body `{message, conversation_id}` -/
  | chat (message : String) (conversation_id : JSId)
  /-- `GET /api/history` -/
  | history
  /-- `GET /api/conversation/{chatId}/messages?page={page}&limit=20` -/
  | messages (chatId : JSId) (page : Nat)
  /-- `DELETE /api/conversation/{chatId}/delete` -/
  | delete (chatId : Int)
  /-- `POST /api/conversation/{chatId}/rename` with body `{title}` -/
  | rename (chatId : Int) (title : JSString)
  deriving DecidableEq, Repr

/-! ## The document -/

/-- A child of `chatBox`. -/
inductive Node where
  /-- the `div.message` built by `renderMessage`: the sender (it selects the
  class and the avatar) and the markup placed in the bubble -/
  | message (sender : String) (formattedText : String)
  /-- the `div#thinking-indicator` built by `showThinkingIndicator` -/
  | thinking
  deriving DecidableEq, Repr

/-- True exactly for the pending placeholder. -/
def Node.isThinking : Node → Bool
  | .thinking => true
  | .message _ _ => false

/-- The content of the `span.history-title` of a history item. -/
inductive TitleSpan where
  /-- what the browser built from the markup interpolated into `innerHTML` at
  line 267 -/
  | parsed (markup : JSString)
  /-- a text assigned through `textContent` (line 399) -/
  | text (t : JSString)
  deriving DecidableEq, Repr

/-- `titleElement.textContent`, where `textOf` gives the text content of the
span the browser builds from a markup. -/
def TitleSpan.textContent (textOf : JSString → JSString) : TitleSpan → JSString
  | .parsed markup => textOf markup
  | .text t => t

/-- A child of `historyContainer`. -/
inductive HistoryNode where
  /-- `div.no-history-item` -/
  | noHistory
  /-- `div.history-item`: `dataset.id`, its `span.history-title`, and the
  value of the `input.rename-input` that stands in for the span while a
  rename is being edited (`none` when the span is attached) -/
  | item (id : Int) (title : TitleSpan) (input : Option JSString)
  deriving DecidableEq, Repr

/-- Closure variables of the client and the document state they act on. -/
structure Client where
  currentConversationId : JSId
  currentMessagesPage : Nat
  isLoadingMoreMessages : Bool
  hasMoreMessages : Bool
  /-- children of `chatBox`, in document order -/
  chatBox : List Node
  /-- `userInput.value` -/
  userInput : String
  /-- `sendBtn.disabled` -/
  sendBtnDisabled : Bool
  /-- whether `newChatPrompt` has class `hidden` -/
  newChatPromptHidden : Bool
  /-- `authContainer.style.display` -/
  authDisplay : String
  /-- `appContainer.style.display` -/
  appDisplay : String
  /-- `usernameDisplay.textContent` -/
  usernameDisplay : String
  /-- children of `historyContainer`, in document order -/
  historyContainer : List HistoryNode
  /-- every `fetch` issued so far, oldest first -/
  requests : List Request
  deriving DecidableEq, Repr

/-- The client right after the script has run its declarations (lines 22-25),
with an empty document. -/
def Client.initial : Client where
  currentConversationId := .null
  currentMessagesPage := 1
  isLoadingMoreMessages := false
  hasMoreMessages := true
  chatBox := []
  userInput := ""
  sendBtnDisabled := false
  newChatPromptHidden := false
  authDisplay := ""
  appDisplay := ""
  usernameDisplay := ""
  historyContainer := []
  requests := []

/-- Records a call to `fetch`. -/
def Client.issue (s : Client) (r : Request) : Client :=
  { s with requests := s.requests ++ [r] }

/-! ## Rendering helpers (section 5 of the script) -/

/-- `renderMessage` (lines 418-435).  `none` when `text.replace` throws,
which happens before the document is touched.  With `prepend` the new
element becomes the first child of `chatBox`, otherwise the last. -/
def renderMessage (s : Client) (m : Message) (_isInstant : Bool) (prepend : Bool) :
    Option Client :=
  match m.text with
  | none => none
  | some text =>
    let messageDiv := Node.message m.sender (formatText text)
    if prepend then
      some { s with chatBox := messageDiv :: s.chatBox }
    else
      some { s with chatBox := s.chatBox ++ [messageDiv] }

/-- Removes the first element for which `p` holds, as
`document.getElementById(...).remove()` does for the first element carrying
the id. -/
def removeFirst (p : Node → Bool) : List Node → List Node
  | [] => []
  | n :: ns => if p n then ns else n :: removeFirst p ns

/-- `showThinkingIndicator` (lines 437-445). -/
def showThinkingIndicator (s : Client) : Client :=
  if s.chatBox.any Node.isThinking then s
  else { s with chatBox := s.chatBox ++ [Node.thinking] }

/-- `hideThinkingIndicator` (lines 447-450). -/
def hideThinkingIndicator (s : Client) : Client :=
  { s with chatBox := removeFirst Node.isThinking s.chatBox }

/-! ## Views -/

/-- `showAppUI` (lines 157-161). -/
def showAppUI (s : Client) (username : String) : Client :=
  { s with authDisplay := "none", appDisplay := "flex", usernameDisplay := username }

/-- `showAuthUI` (lines 163-167). -/
def showAuthUI (s : Client) : Client :=
  let s := { s with authDisplay := "none" }
  let s := { s with appDisplay := "none" }
  { s with authDisplay := "flex" }

/-- `resetToNewChatView` (lines 183-192). -/
def resetToNewChatView (s : Client) : Client :=
  { s with
    currentConversationId := .null
    chatBox := []
    userInput := ""
    newChatPromptHidden := false
    sendBtnDisabled := false }

/-! ## History list -/

/-- The element `renderHistoryList` builds for one conversation
(lines 260-276). -/
def historyItem (c : Conversation) : HistoryNode :=
  let displayTitle :=
    match c.title with
    | some t => if t = [] then js "New Conversation" else t
    | none => js "New Conversation"
  .item c.id (.parsed (truncateTitle displayTitle)) none

/-- `renderHistoryList` (lines 252-278). -/
def renderHistoryList (s : Client) (conversations : List Conversation) : Client :=
  if conversations.length = 0 then
    { s with historyContainer := [HistoryNode.noHistory] }
  else
    { s with historyContainer := conversations.map historyItem }

/-- `fetchHistoryAndRender` (lines 241-250).  Its `catch` only logs. -/
def fetchHistoryAndRender (s : Client) (net : Fetch (List Conversation)) : Client :=
  let s := s.issue .history
  match net with
  | .rejected => s
  | .response ok json =>
    if !ok then s
    else
      match json with
      | none => s
      | some conversations => renderHistoryList s conversations

/-! ## Sending a message -/

/-- The text of the synthetic bot message of line 227. -/
def connectionErrorText : String := "⚠️ Unable to connect to server!"

/-- The `try` block of `sendMessage` (lines 206-223). -/
def sendMessageTry (s : Client) (msgText : String) (chat : Fetch ChatData)
    (hist : Fetch (List Conversation)) : Except Client Client :=
  let s := s.issue (.chat msgText s.currentConversationId)
  match chat with
  | .rejected => .error s
  | .response ok json =>
    let s := hideThinkingIndicator s
    if !ok then .error s
    else
      match json with
      | none => .error s
      | some data =>
        match renderMessage s ⟨"bot", data.reply⟩ false false with
        | none => .error s
        | some s =>
          let s :=
            if !s.currentConversationId.truthy then
              { s with currentConversationId := data.conversation_id }
            else s
          .ok (fetchHistoryAndRender s hist)

/-- The `catch` block of `sendMessage` (lines 225-228). -/
def sendMessageCatch (s : Client) : Client :=
  let s := hideThinkingIndicator s
  match renderMessage s ⟨"bot", some connectionErrorText⟩ false false with
  | some s => s
  | none => s

/-- `sendMessage` (lines 194-235) with the outcome `chat` of the request to
`/api/chat` and the outcome `hist` of the history request that follows a
successful exchange. -/
def sendMessage (s : Client) (chat : Fetch ChatData) (hist : Fetch (List Conversation)) :
    Client :=
  let msgText := jsTrim s.userInput
  if msgText = "" then s
  else
    let s := { s with newChatPromptHidden := true }
    match renderMessage s ⟨"user", some msgText⟩ false false with
    | none => s
    | some s =>
      let s := { s with userInput := "" }
      let s := { s with sendBtnDisabled := true }
      let s := showThinkingIndicator s
      let s :=
        match sendMessageTry s msgText chat hist with
        | .ok s => s
        | .error s => sendMessageCatch s
      { s with sendBtnDisabled := false }

/-! ## Loading a conversation and its pages -/

/-- The callback `data.messages.forEach(message => renderMessage(message, true, prepend))`
(line 305): the messages are rendered one after the other, and the first
`renderMessage` that throws ends the loop. -/
def renderEach (s : Client) (prepend : Bool) : List Message → Except Client Client
  | [] => .ok s
  | m :: ms =>
    match renderMessage s m true prepend with
    | none => .error s
    | some s => renderEach s prepend ms

/-- The `try` block of `fetchAndRenderMessages` (lines 297-309). -/
def fetchAndRenderMessagesTry (s : Client) (chatId : JSId) (page : Nat) (prepend : Bool)
    (net : Fetch PageData) : Except Client Client :=
  let s := s.issue (.messages chatId page)
  match net with
  | .rejected => .error s
  | .response ok json =>
    if !ok then .error s
    else
      match json with
      | none => .error s
      | some data =>
        match data.pagination with
        | none => .error s
        | some has_more =>
          let s := { s with hasMoreMessages := has_more }
          match data.messages with
          | none => .ok s
          | some messages =>
            if messages.length > 0 then renderEach s prepend messages
            else .ok s

/-- `fetchAndRenderMessages` (lines 292-315).  The `catch` only logs; the
`finally` clears the flag. -/
def fetchAndRenderMessages (s : Client) (chatId : JSId) (page : Nat) (prepend : Bool)
    (net : Fetch PageData) : Client :=
  if s.isLoadingMoreMessages then s
  else
    let s := { s with isLoadingMoreMessages := true }
    let s :=
      match fetchAndRenderMessagesTry s chatId page prepend net with
      | .ok s => s
      | .error s => s
    { s with isLoadingMoreMessages := false }

/-- Lines 281-286 of `loadConversation`: the assignments made before the
page is requested.  `chatId` is the integer whose decimal string is
`dataset.id`, so `Number(chatId)` is that integer. -/
def loadConversationReset (s : Client) (chatId : Int) : Client :=
  { s with
    currentConversationId := .num chatId
    currentMessagesPage := 1
    hasMoreMessages := true
    chatBox := []
    newChatPromptHidden := true }

/-- `loadConversation` (lines 280-290). -/
def loadConversation (s : Client) (chatId : Int) (net : Fetch PageData) : Client :=
  let s := loadConversationReset s chatId
  fetchAndRenderMessages s (.num chatId) s.currentMessagesPage false net

/-- The scroll listener of `chatBox` (lines 480-485); `atTop` is
`chatBox.scrollTop === 0`. -/
def onScroll (s : Client) (atTop : Bool) (net : Fetch PageData) : Client :=
  if atTop && !s.isLoadingMoreMessages && s.hasMoreMessages then
    let s := { s with currentMessagesPage := s.currentMessagesPage + 1 }
    fetchAndRenderMessages s s.currentConversationId s.currentMessagesPage true net
  else s

/-! ## Deleting and renaming a conversation, logging out -/

/-- The `try` block of `deleteChatLogic` (lines 357-371).  `chatId` is the
integer whose decimal string is `dataset.id`; the response of the `DELETE`
request is not inspected. -/
def deleteChatLogicTry (s : Client) (chatId : Int) (del : Fetch Unit)
    (hist : Fetch (List Conversation)) : Except Client Client :=
  let s := s.issue (.delete chatId)
  match del with
  | .rejected => .error s
  | .response _ _ =>
    let s := fetchHistoryAndRender s hist
    if s.currentConversationId.toJSString = toString chatId then
      .ok (resetToNewChatView s)
    else .ok s

/-- `deleteChatLogic` (lines 355-375).  The `catch` only logs. -/
def deleteChatLogic (s : Client) (chatId : Int) (del : Fetch Unit)
    (hist : Fetch (List Conversation)) : Client :=
  match deleteChatLogicTry s chatId del hist with
  | .ok s => s
  | .error s => s

/-- `startRename` up to the definition of `saveRename` (lines 377-388), on
the history item it is called with: the item with the input in place of its
title span, and the constant `currentTitleText`.  `textOf` gives the text
content of the span the browser built from a markup. -/
def startRename (textOf : JSString → JSString) : HistoryNode → HistoryNode × JSString
  | .item id title _ =>
    let currentTitleText := stripEllipsis (title.textContent textOf)
    (.item id title (some (stripNewlines currentTitleText)), currentTitleText)
  | .noHistory => (.noHistory, [])

/-- The user replacing the content of the rename input by `value`. -/
def setInputValue (value : JSString) : HistoryNode → HistoryNode
  | .item id title (some _) => .item id title (some (stripNewlines value))
  | n => n

/-- The closure `saveRename` (lines 390-407) on the history item being
edited, with the captured `currentTitleText`: the item afterwards and the
requests issued.  The response of the request is not inspected. -/
def saveRename (currentTitleText : JSString) (net : Fetch Unit) :
    HistoryNode → HistoryNode × List Request
  | .item id title (some value) =>
    let newTitle := trimUnits value
    if newTitle ≠ [] ∧ newTitle ≠ currentTitleText then
      match net with
      | .rejected => (.item id title none, [.rename id newTitle])
      | .response _ _ =>
        (.item id (.text (truncateTitle newTitle)) (some value), [.rename id newTitle])
    else (.item id title none, [])
  | n => (n, [])

/-- A rename from start to commit: `startRename`, the user replacing the
content of the input by `entered`, then `saveRename` on blur. -/
def renameItem (textOf : JSString → JSString) (item : HistoryNode) (entered : JSString)
    (net : Fetch Unit) : HistoryNode × List Request :=
  let started := startRename textOf item
  saveRename started.2 net (setInputValue entered started.1)

/-- The callback of the logout dialog (lines 147-153).  `isConfirmed` is the
answer to the dialog; when `fetch` rejects, the `await` throws and the rest
of the callback does not run. -/
def logoutClick (s : Client) (isConfirmed : Bool) (net : Fetch Unit) : Client :=
  if isConfirmed then
    let s := s.issue .logout
    match net with
    | .rejected => s
    | .response _ _ =>
      let s := { s with currentConversationId := .null }
      showAuthUI s
  else s

/-! ## Observations used in the statements -/

/-- The message entries of `chatBox`: its children other than the pending
placeholder. -/
def transcript (s : Client) : List Node :=
  s.chatBox.filter fun n => !n.isThinking

/-- The element `renderMessage` builds for a sender and a string text. -/
def messageDiv (sender text : String) : Node :=
  Node.message sender (formatText text)

/-- The text of the bot entry a send ends with: the reply when a response
with `ok` set carries a body whose `reply` is a string, the connection error
text for every other outcome. -/
def botText : Fetch ChatData → String
  | .response true (some ⟨some reply, _⟩) => reply
  | _ => connectionErrorText

/-- Whether the request to `/api/chat` succeeded: a response with `ok` set
whose body parses and carries a string `reply`. -/
def chatSucceeded : Fetch ChatData → Option ChatData
  | .response true (some ⟨some reply, cid⟩) => some ⟨some reply, cid⟩
  | _ => none

/-- The client inside `sendMessage` at line 204, for a non-empty `msgText`:
the prompt is hidden, the user entry rendered, the input cleared, the button
disabled and the placeholder shown. -/
def sendMessageEcho (s : Client) : Client :=
  showThinkingIndicator
    { s with
      newChatPromptHidden := true
      chatBox := s.chatBox ++ [messageDiv "user" (jsTrim s.userInput)]
      userInput := ""
      sendBtnDisabled := true }

/-- A client showing the conversation of a history entry whose id is `0`
(the page request got an empty page), with `hello` typed in the input. -/
def zeroIdClient : Client :=
  { loadConversation Client.initial 0 (.response true (some ⟨some [], some false⟩)) with
    userInput := "hello" }

/-- A client in the new-chat view with `  hello ` typed in the input. -/
def helloClient : Client :=
  { Client.initial with userInput := "  hello " }

/-- A client in the new-chat view with three spaces typed in the input. -/
def blankClient : Client :=
  { Client.initial with userInput := "   " }

/-- The message objects of a well-formed page: each has a sender and a
string text. -/
def pageMessages (ms : List (String × String)) : List Message :=
  ms.map fun m => ⟨m.1, some m.2⟩

/-- The elements `renderMessage` builds for the messages of a well-formed
page, in the order of the page. -/
def pageDivs (ms : List (String × String)) : List Node :=
  ms.map fun m => messageDiv m.1 m.2

/-- A client showing one earlier bot entry, with no page request in flight. -/
def oneEntryClient : Client :=
  { Client.initial with
    currentConversationId := .num 3
    chatBox := [messageDiv "bot" "old"] }

/-- The client `oneEntryClient` while a page request is in flight. -/
def busyClient : Client :=
  { oneEntryClient with isLoadingMoreMessages := true }

/-- A page of two messages, `a` from the user then `b` from the bot, with
more pages to come. -/
def twoMessagePage : Fetch PageData :=
  .response true (some ⟨some (pageMessages [("user", "a"), ("bot", "b")]), some true⟩)

/-- The number a list of decimal digit characters denotes. -/
def digitsValue (l : List Char) : Nat :=
  l.foldl (fun a c => 10 * a + (c.toNat - 48)) 0

/-- The integer a decimal numeral with an optional leading `-` denotes. -/
def decodeInt : List Char → Int
  | [] => 0
  | c :: r => if c = '-' then -(digitsValue r : Int) else (digitsValue (c :: r) : Int)

/-- A client logged in as `ann`, showing conversation 3 with one entry. -/
def loggedInClient : Client :=
  showAppUI oneEntryClient "ann"

/-- The text content of a span built from markup that holds no `<`, no `&`,
no NUL and no carriage return: the markup itself.  It stands for the
browser only on such markup. -/
def plainText (markup : JSString) : JSString := markup

/-- A conversation whose title has 31 characters. -/
def longTitleConversation : Conversation :=
  ⟨1, some (js "aaaaaaaaaaaaaaaaaaaaaaaaaaaaaaa")⟩

/-- A conversation whose title is sixteen times U+1F600, 32 code units. -/
def emojiTitleConversation : Conversation :=
  ⟨2, some (js "😀😀😀😀😀😀😀😀😀😀😀😀😀😀😀😀")⟩

/-- Whether the page request failed: the `fetch` is rejected, the response is
not `ok`, its body does not parse, or the body has no `pagination` object
(so reading `has_more` throws). -/
def pageRequestFailed : Fetch PageData → Bool
  | .rejected => true
  | .response false _ => true
  | .response true none => true
  | .response true (some data) => data.pagination.isNone

/-- A page with pagination data whose second message has no string text. -/
def malformedMessagePage : Fetch PageData :=
  .response true (some ⟨some [⟨"user", some "a"⟩, ⟨"bot", none⟩], some false⟩)

/-- The elements the loop of line 305 builds before it ends: those of the
messages that come before the first one whose text is not a string. -/
def renderedPrefix : List Message → List Node
  | [] => []
  | m :: ms =>
    match m.text with
    | none => []
    | some text => messageDiv m.sender text :: renderedPrefix ms

/-- The elements a page request that is not dropped renders: none when the
request failed, otherwise those of the messages of the body up to the first
one whose text is not a string. -/
def pageWindow : Fetch PageData → List Node
  | .response true (some ⟨some messages, some _⟩) => renderedPrefix messages
  | _ => []

/-- The value of `hasMoreMessages` after a page request that is not dropped:
`has_more` of the body when the request did not fail, the value `before` the
request when it failed. -/
def pageHasMore (before : Bool) : Fetch PageData → Bool
  | .response true (some ⟨_, some has_more⟩) => has_more
  | _ => before

/-- A client in the new-chat view with `&lt;` typed in the input. -/
def entityClient : Client :=
  { Client.initial with userInput := "&lt;" }

/-- A client in the new-chat view with `<` typed in the input. -/
def angleClient : Client :=
  { Client.initial with userInput := "<" }

/-! ## Lemmas on the placeholder -/

@[simp]
theorem isThinking_thinking : Node.thinking.isThinking = true := rfl

@[simp]
theorem isThinking_message (a b : String) : (Node.message a b).isThinking = false := rfl

theorem removeFirst_of_all_false (p : Node → Bool) (l : List Node)
    (h : l.any p = false) : removeFirst p l = l := by
  induction l with
  | nil => rfl
  | cons n ns ih =>
    simp only [List.any_cons, Bool.or_eq_false_iff] at h
    simp [removeFirst, h.1, ih h.2]

theorem removeFirst_append_self (l : List Node) (h : l.any Node.isThinking = false) :
    removeFirst Node.isThinking (l ++ [Node.thinking]) = l := by
  induction l with
  | nil => rfl
  | cons n ns ih =>
    simp only [List.any_cons, Bool.or_eq_false_iff] at h
    simp [removeFirst, h.1, ih h.2]

theorem filter_removeFirst (l : List Node) :
    (removeFirst Node.isThinking l).filter (fun n => !n.isThinking)
      = l.filter (fun n => !n.isThinking) := by
  induction l with
  | nil => rfl
  | cons n ns ih =>
    cases n with
    | thinking => simp [removeFirst]
    | message a b => simp [removeFirst, ih]

theorem transcript_hide (s : Client) : transcript (hideThinkingIndicator s) = transcript s := by
  simp [transcript, hideThinkingIndicator, filter_removeFirst]

theorem transcript_show (s : Client) : transcript (showThinkingIndicator s) = transcript s := by
  unfold showThinkingIndicator
  split
  · rfl
  · simp [transcript]

theorem transcript_fetchHistoryAndRender (s : Client) (hist : Fetch (List Conversation)) :
    transcript (fetchHistoryAndRender s hist) = transcript s := by
  unfold fetchHistoryAndRender renderHistoryList Client.issue transcript
  rcases hist with _ | ⟨ok, json⟩
  · rfl
  · cases ok <;> cases json <;> simp
    split <;> rfl

theorem removeFirst_append_message (l : List Node) (a b : String)
    (h : l.any Node.isThinking = false) :
    removeFirst Node.isThinking (l ++ [Node.message a b]) = l ++ [Node.message a b] := by
  apply removeFirst_of_all_false
  simp [h]

theorem removeFirst_append_message_thinking (l : List Node) (a b : String)
    (h : l.any Node.isThinking = false) :
    removeFirst Node.isThinking (l ++ [Node.message a b, Node.thinking])
      = l ++ [Node.message a b] := by
  have h2 : (l ++ [Node.message a b]).any Node.isThinking = false := by simp [h]
  have := removeFirst_append_self (l ++ [Node.message a b]) h2
  simpa using this

/-! ## Frame lemmas for the history refresh -/

theorem fetchHistoryAndRender_frame (s : Client) (hist : Fetch (List Conversation)) :
    (fetchHistoryAndRender s hist).chatBox = s.chatBox
      ∧ (fetchHistoryAndRender s hist).currentConversationId = s.currentConversationId
      ∧ (fetchHistoryAndRender s hist).currentMessagesPage = s.currentMessagesPage
      ∧ (fetchHistoryAndRender s hist).hasMoreMessages = s.hasMoreMessages
      ∧ (fetchHistoryAndRender s hist).isLoadingMoreMessages = s.isLoadingMoreMessages := by
  unfold fetchHistoryAndRender renderHistoryList Client.issue
  rcases hist with _ | ⟨ok, json⟩
  · simp
  · cases ok <;> cases json <;> simp
    split <;> simp

/-! ## The two ends of a send -/

/-- The children of `chatBox` once the `try`/`catch` of `sendMessage` is
over, when it starts from a box that ends with the user entry and the
placeholder and holds no other placeholder. -/
theorem sendMessage_tail_chatBox (s1 : Client) (t : String) (chat : Fetch ChatData)
    (hist : Fetch (List Conversation)) (C : List Node) (a b : String)
    (hC : C.any Node.isThinking = false)
    (h1 : s1.chatBox = C ++ [Node.message a b, Node.thinking]) :
    (match sendMessageTry s1 t chat hist with
      | .ok s => s
      | .error s => sendMessageCatch s).chatBox
      = C ++ [Node.message a b, messageDiv "bot" (botText chat)] := by
  rcases chat with _ | ⟨ok, json⟩
  · simp [sendMessageTry, sendMessageCatch, hideThinkingIndicator, Client.issue, renderMessage,
      h1, removeFirst_append_message_thinking _ _ _ hC, botText, messageDiv]
  · cases ok
    · simp [sendMessageTry, sendMessageCatch, hideThinkingIndicator, Client.issue, renderMessage,
        h1, removeFirst_append_message_thinking _ _ _ hC, removeFirst_append_message _ _ _ hC,
        botText, messageDiv]
    · rcases json with _ | ⟨reply, cid⟩
      · simp [sendMessageTry, sendMessageCatch, hideThinkingIndicator, Client.issue,
          renderMessage, h1, removeFirst_append_message_thinking _ _ _ hC,
          removeFirst_append_message _ _ _ hC, botText, messageDiv]
      · cases reply
        · simp [sendMessageTry, sendMessageCatch, hideThinkingIndicator, Client.issue,
            renderMessage, h1, removeFirst_append_message_thinking _ _ _ hC,
            removeFirst_append_message _ _ _ hC, botText, messageDiv]
        · simp [sendMessageTry, hideThinkingIndicator, Client.issue, renderMessage, h1,
            removeFirst_append_message_thinking _ _ _ hC, botText, messageDiv,
            (fetchHistoryAndRender_frame _ hist).1]
          split <;> simp

/-- The message entries of `chatBox` once the `try`/`catch` of `sendMessage`
is over, from any client. -/
theorem sendMessage_tail_transcript (s1 : Client) (t : String) (chat : Fetch ChatData)
    (hist : Fetch (List Conversation)) :
    transcript (match sendMessageTry s1 t chat hist with
      | .ok s => s
      | .error s => sendMessageCatch s)
      = transcript s1 ++ [messageDiv "bot" (botText chat)] := by
  rcases chat with _ | ⟨ok, json⟩
  · simp [sendMessageTry, sendMessageCatch, hideThinkingIndicator, Client.issue, renderMessage,
      transcript, filter_removeFirst, botText, messageDiv]
  · cases ok
    · simp [sendMessageTry, sendMessageCatch, hideThinkingIndicator, Client.issue, renderMessage,
        transcript, filter_removeFirst, botText, messageDiv]
    · rcases json with _ | ⟨reply, cid⟩
      · simp [sendMessageTry, sendMessageCatch, hideThinkingIndicator, Client.issue,
          renderMessage, transcript, filter_removeFirst, botText, messageDiv]
      · cases reply
        · simp [sendMessageTry, sendMessageCatch, hideThinkingIndicator, Client.issue,
            renderMessage, transcript, filter_removeFirst, botText, messageDiv]
        · simp [sendMessageTry, hideThinkingIndicator, Client.issue, renderMessage,
            botText, messageDiv, transcript, (fetchHistoryAndRender_frame _ hist).1]
          split <;> simp [filter_removeFirst]

theorem sendMessage_of_text (s : Client) (chat : Fetch ChatData)
    (hist : Fetch (List Conversation)) (h : jsTrim s.userInput ≠ "") :
    sendMessage s chat hist
      = { (match sendMessageTry (sendMessageEcho s) (jsTrim s.userInput) chat hist with
            | .ok s => s
            | .error s => sendMessageCatch s) with sendBtnDisabled := false } := by
  unfold sendMessage
  simp [h, renderMessage, sendMessageEcho, messageDiv]

theorem sendMessageEcho_transcript (s : Client) :
    transcript (sendMessageEcho s)
      = transcript s ++ [messageDiv "user" (jsTrim s.userInput)] := by
  rw [sendMessageEcho, transcript_show]
  simp [transcript, messageDiv]

theorem sendMessageEcho_chatBox (s : Client) (hc : s.chatBox.any Node.isThinking = false) :
    (sendMessageEcho s).chatBox
      = s.chatBox ++ [Node.message "user" (formatText (jsTrim s.userInput)), Node.thinking] := by
  simp [sendMessageEcho, showThinkingIndicator, messageDiv, hc]

theorem sendMessageEcho_id (s : Client) :
    (sendMessageEcho s).currentConversationId = s.currentConversationId := by
  unfold sendMessageEcho showThinkingIndicator
  split <;> rfl

/-- The conversation id after a send with a non-empty text: the id the server
returned when the exchange succeeded and the id before was falsy (`null`,
`undefined` or the number `0`), the id before in every other case. -/
theorem sendMessage_conversationId (s : Client) (chat : Fetch ChatData)
    (hist : Fetch (List Conversation)) (h : jsTrim s.userInput ≠ "") :
    (sendMessage s chat hist).currentConversationId
      = match chatSucceeded chat with
        | some data =>
          if s.currentConversationId.truthy then s.currentConversationId
          else data.conversation_id
        | none => s.currentConversationId := by
  rw [sendMessage_of_text s chat hist h]
  have hid := sendMessageEcho_id s
  rcases chat with _ | ⟨ok, json⟩
  · simp [sendMessageTry, sendMessageCatch, hideThinkingIndicator, Client.issue, renderMessage,
      chatSucceeded, hid]
  · cases ok
    · simp [sendMessageTry, sendMessageCatch, hideThinkingIndicator, Client.issue, renderMessage,
        chatSucceeded, hid]
    · rcases json with _ | ⟨reply, cid⟩
      · simp [sendMessageTry, sendMessageCatch, hideThinkingIndicator, Client.issue,
          renderMessage, chatSucceeded, hid]
      · cases reply
        · simp [sendMessageTry, sendMessageCatch, hideThinkingIndicator, Client.issue,
            renderMessage, chatSucceeded, hid]
        · simp [sendMessageTry, hideThinkingIndicator, Client.issue, renderMessage,
            chatSucceeded, hid, (fetchHistoryAndRender_frame _ hist).2.1]
          cases s.currentConversationId.truthy <;> simp [hid]

/-! ## Claims on `sendMessage` -/

/-- C1, at the input where the code departs from it: a client showing the
conversation with id `0` sends `hello`, the server replies `hi` with
`conversation_id` 7, and the conversation id, `0` before the send, is `7`
after it. -/
theorem sendMessage_overwrites_zero_id :
    zeroIdClient.currentConversationId = JSId.num 0
      ∧ (sendMessage zeroIdClient (.response true (some ⟨some "hi", .num 7⟩))
          (.response true (some [⟨0, some (js "first")⟩]))).currentConversationId
        = JSId.num 7 := by
  decide

/-- The number and order of the entries of a send: for an input whose
trimmed text is not empty and every outcome of the request, the message
entries of the chat box after `sendMessage` are those before it followed by
the element built for the user with the trimmed text and the element built
for the bot with the reply (success) or the connection error text (failure);
and from a box without placeholder the box holds exactly these children
afterwards, so no placeholder is left. -/
theorem sendMessage_appends_user_then_bot (s : Client) (chat : Fetch ChatData)
    (hist : Fetch (List Conversation)) (h : jsTrim s.userInput ≠ "") :
    transcript (sendMessage s chat hist)
        = transcript s
          ++ [messageDiv "user" (jsTrim s.userInput), messageDiv "bot" (botText chat)]
      ∧ (s.chatBox.any Node.isThinking = false →
          (sendMessage s chat hist).chatBox
            = s.chatBox
              ++ [messageDiv "user" (jsTrim s.userInput), messageDiv "bot" (botText chat)]) := by
  rw [sendMessage_of_text s chat hist h]
  constructor
  · have ht := sendMessage_tail_transcript (sendMessageEcho s) (jsTrim s.userInput) chat hist
    rw [sendMessageEcho_transcript] at ht
    simpa [transcript] using ht
  · intro hc
    have hb := sendMessage_tail_chatBox (sendMessageEcho s) (jsTrim s.userInput) chat hist
      s.chatBox "user" (formatText (jsTrim s.userInput)) hc (sendMessageEcho_chatBox s hc)
    simpa [messageDiv] using hb

/-- The entries of `  hello ` sent from the new-chat view while the request
is rejected. -/
theorem sendMessage_appends_user_then_bot_witness :
    jsTrim helloClient.userInput ≠ ""
      ∧ helloClient.chatBox.any Node.isThinking = false
      ∧ transcript (sendMessage helloClient .rejected .rejected)
        = transcript helloClient
          ++ [messageDiv "user" (jsTrim helloClient.userInput),
              messageDiv "bot" (botText .rejected)]
      ∧ (sendMessage helloClient .rejected .rejected).chatBox
        = helloClient.chatBox
          ++ [messageDiv "user" (jsTrim helloClient.userInput),
              messageDiv "bot" (botText .rejected)] :=
  ⟨by decide, by decide,
   (sendMessage_appends_user_then_bot helloClient .rejected .rejected (by decide)).1,
   (sendMessage_appends_user_then_bot helloClient .rejected .rejected (by decide)).2
     (by decide)⟩

/-- A text without `<` and `>` is the markup of its own bubble. -/
theorem formatText_plain (text : String) (h : ∀ c ∈ text.toList, c ≠ '<' ∧ c ≠ '>') :
    formatText text = text := by
  unfold formatText
  have hl : ∀ l : List Char, (∀ c ∈ l, c ≠ '<' ∧ c ≠ '>') →
      (l.flatMap fun c =>
        if c = '<' then "&lt;".toList else if c = '>' then "&gt;".toList else [c]) = l := by
    intro l
    induction l with
    | nil => intro _; rfl
    | cons c r ih =>
      intro hc
      have h1 := hc c (by simp)
      have h2 := ih (fun d hd => hc d (by simp [hd]))
      rw [List.flatMap_cons, h2]
      simp [h1.1, h1.2]
  rw [hl text.toList h]
  rfl

/-- C2, at the input where the code departs from it: `&lt;` is sent from the
new-chat view and the server replies `hi`.  One user entry and one bot entry
are appended and no placeholder is left, but the markup of the user bubble
is `&lt;`, which a browser shows as `<`: line 424 escapes `<` and `>` and
leaves `&` as it is, so the entry is the very one appended for the input
`<` and does not carry the trimmed text `&lt;`. -/
theorem sendMessage_entity_text_not_carried :
    jsTrim entityClient.userInput = "&lt;"
      ∧ jsTrim angleClient.userInput = "<"
      ∧ (sendMessage entityClient (.response true (some ⟨some "hi", .num 7⟩)) .rejected).chatBox
        = [Node.message "user" "&lt;", Node.message "bot" "hi"]
      ∧ (sendMessage angleClient (.response true (some ⟨some "hi", .num 7⟩)) .rejected).chatBox
        = [Node.message "user" "&lt;", Node.message "bot" "hi"] := by
  decide

/-- C10: when the input is empty after trimming, `sendMessage` changes
nothing: the chat box (so no entry and no placeholder), the conversation id,
the page, both flags and the list of issued requests are as before. -/
theorem sendMessage_blank_noop (s : Client) (chat : Fetch ChatData)
    (hist : Fetch (List Conversation)) (h : jsTrim s.userInput = "") :
    sendMessage s chat hist = s := by
  unfold sendMessage
  simp [h]

/-- Witness of C10: three spaces in the input. -/
theorem sendMessage_blank_noop_witness :
    jsTrim blankClient.userInput = ""
      ∧ sendMessage blankClient (.response true (some ⟨some "hi", .num 7⟩)) .rejected
        = blankClient :=
  ⟨by decide, sendMessage_blank_noop blankClient _ _ (by decide)⟩

/-! ## Rendering a page -/

theorem renderEach_append (ms : List (String × String)) :
    ∀ s : Client, renderEach s false (pageMessages ms)
      = .ok { s with chatBox := s.chatBox ++ pageDivs ms } := by
  induction ms with
  | nil => intro s; simp [renderEach, pageMessages, pageDivs]
  | cons m ms ih =>
    intro s
    have := ih { s with chatBox := s.chatBox ++ [messageDiv m.1 m.2] }
    simp only [pageMessages, pageDivs, messageDiv] at this ⊢
    simp [renderEach, renderMessage, this]

theorem renderEach_prepend (ms : List (String × String)) :
    ∀ s : Client, renderEach s true (pageMessages ms)
      = .ok { s with chatBox := (pageDivs ms).reverse ++ s.chatBox } := by
  induction ms with
  | nil => intro s; simp [renderEach, pageMessages, pageDivs]
  | cons m ms ih =>
    intro s
    have := ih { s with chatBox := messageDiv m.1 m.2 :: s.chatBox }
    simp only [pageMessages, pageDivs, messageDiv] at this ⊢
    simp [renderEach, renderMessage, this]

/-- A page request that is not dropped and receives a well-formed page:
the flag is cleared, `hasMoreMessages` is the server value, the request is
recorded, and the page is rendered after the current children in page order
(`prepend = false`) or before them in reverse page order (`prepend = true`). -/
theorem fetchAndRenderMessages_page (s : Client) (chatId : JSId) (page : Nat)
    (prepend : Bool) (ms : List (String × String)) (hm : Bool)
    (h : s.isLoadingMoreMessages = false) :
    fetchAndRenderMessages s chatId page prepend
        (.response true (some ⟨some (pageMessages ms), some hm⟩))
      = { s with
          isLoadingMoreMessages := false
          hasMoreMessages := hm
          requests := s.requests ++ [.messages chatId page]
          chatBox :=
            if prepend then (pageDivs ms).reverse ++ s.chatBox else s.chatBox ++ pageDivs ms } := by
  unfold fetchAndRenderMessages fetchAndRenderMessagesTry
  cases ms with
  | nil => cases prepend <;> simp [h, Client.issue, pageMessages, pageDivs]
  | cons m ms =>
    cases prepend
    · have hl : 0 < (pageMessages (m :: ms)).length := by simp [pageMessages]
      simp [h, Client.issue, renderEach_append, hl]
    · have hl : 0 < (pageMessages (m :: ms)).length := by simp [pageMessages]
      simp [h, Client.issue, renderEach_prepend, hl]

theorem renderEach_frame (prepend : Bool) (ms : List Message) :
    ∀ s : Client,
      (match renderEach s prepend ms with
        | .ok x => x
        | .error x => x).currentConversationId = s.currentConversationId
      ∧ (match renderEach s prepend ms with
        | .ok x => x
        | .error x => x).currentMessagesPage = s.currentMessagesPage
      ∧ (match renderEach s prepend ms with
        | .ok x => x
        | .error x => x).requests = s.requests := by
  induction ms with
  | nil => intro s; simp [renderEach]
  | cons m ms ih =>
    intro s
    rcases m with ⟨sender, _ | text⟩
    · simp [renderEach, renderMessage]
    · cases prepend
      · simpa [renderEach, renderMessage] using ih _
      · simpa [renderEach, renderMessage] using ih _

/-- A page request that is not dropped, whatever its outcome: the request is
recorded, the flag is clear when the call completes, and the conversation id
and the page cursor are untouched. -/
theorem fetchAndRenderMessages_started (s : Client) (chatId : JSId) (page : Nat)
    (prepend : Bool) (net : Fetch PageData) (h : s.isLoadingMoreMessages = false) :
    (fetchAndRenderMessages s chatId page prepend net).requests
        = s.requests ++ [.messages chatId page]
      ∧ (fetchAndRenderMessages s chatId page prepend net).isLoadingMoreMessages = false
      ∧ (fetchAndRenderMessages s chatId page prepend net).currentConversationId
        = s.currentConversationId
      ∧ (fetchAndRenderMessages s chatId page prepend net).currentMessagesPage
        = s.currentMessagesPage := by
  unfold fetchAndRenderMessages fetchAndRenderMessagesTry
  rcases net with _ | ⟨ok, json⟩
  · simp [h, Client.issue]
  · cases ok
    · simp [h, Client.issue]
    · rcases json with _ | ⟨messages, pagination⟩
      · simp [h, Client.issue]
      · rcases pagination with _ | hm
        · simp [h, Client.issue]
        · rcases messages with _ | ms
          · simp [h, Client.issue]
          · by_cases hl : 0 < ms.length
            · have hf := renderEach_frame prepend ms
                { s with isLoadingMoreMessages := true
                         requests := s.requests ++ [.messages chatId page]
                         hasMoreMessages := hm }
              simp only [h, Client.issue, hl]
              simp at hf ⊢
              exact ⟨hf.2.2, hf.1, hf.2.1⟩
            · simp [h, Client.issue, hl]

theorem renderedPrefix_pageMessages (ms : List (String × String)) :
    renderedPrefix (pageMessages ms) = pageDivs ms := by
  induction ms with
  | nil => rfl
  | cons m ms ih =>
    simp only [pageMessages, pageDivs] at ih ⊢
    simp [renderedPrefix, ih]

theorem renderEach_append_any (ms : List Message) :
    ∀ s : Client,
      (match renderEach s false ms with
        | .ok x => x
        | .error x => x) = { s with chatBox := s.chatBox ++ renderedPrefix ms } := by
  induction ms with
  | nil => intro s; simp [renderEach, renderedPrefix]
  | cons m ms ih =>
    intro s
    rcases m with ⟨sender, _ | text⟩
    · simp [renderEach, renderMessage, renderedPrefix]
    · have := ih { s with chatBox := s.chatBox ++ [messageDiv sender text] }
      simp only [messageDiv] at this
      simp [renderEach, renderMessage, renderedPrefix, messageDiv, this]

/-- A page request with `prepend = false` that is not dropped, for every
outcome: the request is recorded, the flag cleared, `hasMoreMessages` and
the rendered elements are those of `pageHasMore` and `pageWindow`. -/
theorem fetchAndRenderMessages_append (s : Client) (chatId : JSId) (page : Nat)
    (net : Fetch PageData) (h : s.isLoadingMoreMessages = false) :
    fetchAndRenderMessages s chatId page false net
      = { s with
          isLoadingMoreMessages := false
          hasMoreMessages := pageHasMore s.hasMoreMessages net
          requests := s.requests ++ [.messages chatId page]
          chatBox := s.chatBox ++ pageWindow net } := by
  unfold fetchAndRenderMessages fetchAndRenderMessagesTry
  rcases net with _ | ⟨ok, json⟩
  · simp [h, Client.issue, pageHasMore, pageWindow]
  · cases ok
    · simp [h, Client.issue, pageHasMore, pageWindow]
    · rcases json with _ | ⟨messages, pagination⟩
      · simp [h, Client.issue, pageHasMore, pageWindow]
      · rcases pagination with _ | hm
        · simp [h, Client.issue, pageHasMore, pageWindow]
        · rcases messages with _ | ms
          · simp [h, Client.issue, pageHasMore, pageWindow]
          · by_cases hl : 0 < ms.length
            · have hr := renderEach_append_any ms
                { s with isLoadingMoreMessages := true
                         requests := s.requests ++ [.messages chatId page]
                         hasMoreMessages := hm }
              simp only [h, Client.issue, hl, pageHasMore, pageWindow]
              simp only [Bool.false_eq_true, if_false, Bool.not_true, if_true] at hr ⊢
              rw [hr]
            · have hnil : ms = [] := by
                cases ms with
                | nil => rfl
                | cons m ms => simp at hl
              subst hnil
              simp [h, Client.issue, pageHasMore, pageWindow, renderedPrefix]

/-! ## Claims on loading a conversation and its pages -/

/-- C3, as stated, fails: `loadConversation(5)` called while a page request
is in flight leaves `isLoadingMoreMessages` set and issues no request. -/
theorem loadConversation_while_fetching :
    busyClient.isLoadingMoreMessages = true
      ∧ (loadConversation busyClient 5 twoMessagePage).isLoadingMoreMessages = true
      ∧ (loadConversation busyClient 5 twoMessagePage).requests = [] := by
  decide

/-- C3, amended: `loadConversation(id)` sets the conversation id to `id` and
the page to 1, empties the chat box and sets `hasMoreMessages`, and leaves
`isLoadingMoreMessages` as it was, before it asks for the page.  When that
flag was clear, the request for page 1 of conversation `id` is issued and
the whole client at completion is given: id `id`, page 1, flag clear, and
with `prepend = false` a failed request leaves `hasMoreMessages` true and
the box empty, while a well-formed page sets `hasMoreMessages` to the
server value and fills the emptied box with the page in page order.  When
the flag was set, no request is issued and the client at completion has id
`id`, page 1, `hasMoreMessages` true, an empty box and the flag still set. -/
theorem loadConversation_resets (s : Client) (id : Int) (net : Fetch PageData) :
    (s.isLoadingMoreMessages = false →
        loadConversation s id net
            = { s with
                currentConversationId := JSId.num id
                currentMessagesPage := 1
                hasMoreMessages := pageHasMore true net
                chatBox := pageWindow net
                newChatPromptHidden := true
                isLoadingMoreMessages := false
                requests := s.requests ++ [.messages (.num id) 1] }
          ∧ (loadConversation s id net).currentConversationId = JSId.num id
          ∧ (loadConversation s id net).currentMessagesPage = 1
          ∧ (loadConversation s id net).isLoadingMoreMessages = false
          ∧ (loadConversation s id net).requests = s.requests ++ [.messages (.num id) 1]
          ∧ (pageRequestFailed net = true →
              (loadConversation s id net).hasMoreMessages = true
                ∧ (loadConversation s id net).chatBox = [])
          ∧ (∀ (ms : List (String × String)) (hm : Bool),
              net = .response true (some ⟨some (pageMessages ms), some hm⟩) →
                (loadConversation s id net).hasMoreMessages = hm
                  ∧ (loadConversation s id net).chatBox = pageDivs ms))
      ∧ (s.isLoadingMoreMessages = true →
          loadConversation s id net
              = { s with
                  currentConversationId := JSId.num id
                  currentMessagesPage := 1
                  hasMoreMessages := true
                  chatBox := []
                  newChatPromptHidden := true }
            ∧ (loadConversation s id net).currentConversationId = JSId.num id
            ∧ (loadConversation s id net).currentMessagesPage = 1
            ∧ (loadConversation s id net).hasMoreMessages = true
            ∧ (loadConversation s id net).chatBox = []
            ∧ (loadConversation s id net).isLoadingMoreMessages = true
            ∧ (loadConversation s id net).requests = s.requests) := by
  constructor
  · intro h
    have hr : (loadConversationReset s id).isLoadingMoreMessages = false := h
    have he : loadConversation s id net
        = { s with
            currentConversationId := JSId.num id
            currentMessagesPage := 1
            hasMoreMessages := pageHasMore true net
            chatBox := pageWindow net
            newChatPromptHidden := true
            isLoadingMoreMessages := false
            requests := s.requests ++ [.messages (.num id) 1] } := by
      show fetchAndRenderMessages (loadConversationReset s id) (.num id) 1 false net = _
      rw [fetchAndRenderMessages_append _ _ _ _ hr]
      simp [loadConversationReset]
    refine ⟨he, ?_, ?_, ?_, ?_, ?_, ?_⟩
    · rw [he]
    · rw [he]
    · rw [he]
    · rw [he]
    · intro hf
      rw [he]
      rcases net with _ | ⟨ok, json⟩
      · exact ⟨rfl, rfl⟩
      · cases ok
        · exact ⟨rfl, rfl⟩
        · rcases json with _ | ⟨messages, pagination⟩
          · exact ⟨rfl, rfl⟩
          · rcases pagination with _ | hm
            · cases messages <;> exact ⟨rfl, rfl⟩
            · simp [pageRequestFailed] at hf
    · intro ms hm hnet
      subst hnet
      rw [he]
      exact ⟨rfl, renderedPrefix_pageMessages ms⟩
  · intro h
    have hr : (loadConversationReset s id).isLoadingMoreMessages = true := h
    have he : loadConversation s id net
        = { s with
            currentConversationId := JSId.num id
            currentMessagesPage := 1
            hasMoreMessages := true
            chatBox := []
            newChatPromptHidden := true } := by
      show fetchAndRenderMessages (loadConversationReset s id) (.num id) 1 false net = _
      unfold fetchAndRenderMessages
      rw [if_pos hr]
      rfl
    refine ⟨he, ?_, ?_, ?_, ?_, ?_, ?_⟩
    · rw [he]
    · rw [he]
    · rw [he]
    · rw [he]
    · rw [he]; exact h
    · rw [he]

/-- Witness of C3 amended: conversation 5 loaded from a client showing one
entry with no page request in flight, once with a request that fails and
once with a well-formed page, and from a client with a request in flight. -/
theorem loadConversation_resets_witness :
    (oneEntryClient.isLoadingMoreMessages = false
        ∧ pageRequestFailed (.response false none) = true
        ∧ (loadConversation oneEntryClient 5 (.response false none)).hasMoreMessages = true
        ∧ (loadConversation oneEntryClient 5 (.response false none)).chatBox = []
        ∧ (loadConversation oneEntryClient 5 twoMessagePage).requests
          = oneEntryClient.requests ++ [.messages (.num 5) 1]
        ∧ (loadConversation oneEntryClient 5 twoMessagePage).chatBox
          = pageDivs [("user", "a"), ("bot", "b")])
      ∧ (busyClient.isLoadingMoreMessages = true
        ∧ (loadConversation busyClient 5 twoMessagePage).chatBox = []
        ∧ (loadConversation busyClient 5 twoMessagePage).requests = busyClient.requests) :=
  ⟨⟨rfl, rfl,
    (((loadConversation_resets oneEntryClient 5 (.response false none)).1 rfl).2.2.2.2.2.1
      rfl).1,
    (((loadConversation_resets oneEntryClient 5 (.response false none)).1 rfl).2.2.2.2.2.1
      rfl).2,
    ((loadConversation_resets oneEntryClient 5 twoMessagePage).1 rfl).2.2.2.2.1,
    (((loadConversation_resets oneEntryClient 5 twoMessagePage).1 rfl).2.2.2.2.2.2
      [("user", "a"), ("bot", "b")] true rfl).2⟩,
   ⟨rfl,
    ((loadConversation_resets busyClient 5 twoMessagePage).2 rfl).2.2.2.2.1,
    ((loadConversation_resets busyClient 5 twoMessagePage).2 rfl).2.2.2.2.2.2⟩⟩

/-- C4, at the input where the code departs from it: a page `a`, `b`
rendered with `prepend = true` above one earlier entry leaves the chat box
holding `b`, `a`, then the earlier entry (the page in reverse order), where
the page followed by the earlier entries is `a`, `b`, then the earlier
entry. -/
theorem fetchAndRenderMessages_prepend_reverses :
    (fetchAndRenderMessages oneEntryClient (.num 3) 2 true twoMessagePage).chatBox
        = [messageDiv "bot" "b", messageDiv "user" "a", messageDiv "bot" "old"]
      ∧ pageDivs [("user", "a"), ("bot", "b")] ++ oneEntryClient.chatBox
        = [messageDiv "user" "a", messageDiv "bot" "b", messageDiv "bot" "old"] := by
  decide

/-- C5: a call of `fetchAndRenderMessages` made while
`isLoadingMoreMessages` is set returns the client it was given: the
conversation id, the page, both flags (the flag stays set), the chat box and
the list of issued requests are unchanged. -/
theorem fetchAndRenderMessages_dropped (s : Client) (chatId : JSId) (page : Nat)
    (prepend : Bool) (net : Fetch PageData) (h : s.isLoadingMoreMessages = true) :
    fetchAndRenderMessages s chatId page prepend net = s
      ∧ (fetchAndRenderMessages s chatId page prepend net).isLoadingMoreMessages = true
      ∧ (fetchAndRenderMessages s chatId page prepend net).requests = s.requests := by
  have he : fetchAndRenderMessages s chatId page prepend net = s := by
    unfold fetchAndRenderMessages
    simp [h]
  rw [he]
  exact ⟨rfl, h, rfl⟩

/-- Witness of C5: a page request made while another one is in flight. -/
theorem fetchAndRenderMessages_dropped_witness :
    busyClient.isLoadingMoreMessages = true
      ∧ fetchAndRenderMessages busyClient (.num 3) 2 true twoMessagePage = busyClient :=
  ⟨rfl, (fetchAndRenderMessages_dropped busyClient (.num 3) 2 true twoMessagePage rfl).1⟩

/-! ## Decimal strings of conversation ids -/

theorem digitChar_value (k : Nat) (h : k < 10) : (Nat.digitChar k).toNat - 48 = k := by
  interval_cases k <;> rfl

theorem digitChar_isDigit (k : Nat) (h : k < 10) : (Nat.digitChar k).isDigit = true := by
  interval_cases k <;> rfl

theorem toDigitsCore_value (f : Nat) :
    ∀ (n : Nat) (acc : List Char), n < f →
      List.foldl (fun a c => 10 * a + (c.toNat - 48)) 0 (Nat.toDigitsCore 10 f n acc)
        = List.foldl (fun a c => 10 * a + (c.toNat - 48)) n acc := by
  induction f with
  | zero => intro n acc h; omega
  | succ f ih =>
    intro n acc h
    simp only [Nat.toDigitsCore]
    have hd := digitChar_value (n % 10) (Nat.mod_lt _ (by decide))
    split
    · rename_i h0
      have hn : n % 10 = n := by omega
      simp only [List.foldl, Nat.mul_zero, Nat.zero_add, hd]
      rw [hn]
    · rename_i h0
      have hlt : n / 10 < f := by omega
      rw [ih (n / 10) _ hlt]
      simp only [List.foldl, hd]
      congr 1
      omega

theorem toDigitsCore_isDigit (f : Nat) :
    ∀ (n : Nat) (acc : List Char), (∀ c ∈ acc, c.isDigit = true) →
      ∀ c ∈ Nat.toDigitsCore 10 f n acc, c.isDigit = true := by
  induction f with
  | zero => intro n acc h; simpa [Nat.toDigitsCore] using h
  | succ f ih =>
    intro n acc h
    have hd := digitChar_isDigit (n % 10) (Nat.mod_lt _ (by decide))
    have hacc : ∀ c ∈ Nat.digitChar (n % 10) :: acc, c.isDigit = true := by
      intro c hc
      rcases List.mem_cons.mp hc with rfl | hc
      · exact hd
      · exact h c hc
    simp only [Nat.toDigitsCore]
    split
    · exact hacc
    · exact ih _ _ hacc

theorem digitsValue_toDigits (n : Nat) : digitsValue (Nat.toDigits 10 n) = n := by
  unfold digitsValue Nat.toDigits
  rw [toDigitsCore_value (n + 1) n [] (by omega)]
  rfl

theorem toDigits_isDigit (n : Nat) : ∀ c ∈ Nat.toDigits 10 n, c.isDigit = true :=
  toDigitsCore_isDigit (n + 1) n [] (by simp)

theorem decodeInt_digits (l : List Char) (h : ∀ c ∈ l, c.isDigit = true) :
    decodeInt l = (digitsValue l : Int) := by
  cases l with
  | nil => rfl
  | cons c r =>
    have hc : c ≠ '-' := by
      intro he
      have := h c (by simp)
      rw [he] at this
      exact absurd this (by decide)
    simp [decodeInt, hc]

theorem toString_int_isDigitOrMinus (d : Int) :
    ∀ c ∈ (toString d).toList, c.isDigit = true ∨ c = '-' := by
  intro c hc
  cases d with
  | ofNat m =>
    left
    exact toDigits_isDigit m c hc
  | negSucc m =>
    have : (toString (Int.negSucc m)).toList = '-' :: Nat.toDigits 10 (m + 1) := rfl
    rw [this] at hc
    rcases List.mem_cons.mp hc with rfl | hc
    · right; rfl
    · left; exact toDigits_isDigit _ c hc

theorem decodeInt_toString (d : Int) : decodeInt (toString d).toList = d := by
  cases d with
  | ofNat m =>
    have : (toString (Int.ofNat m)).toList = Nat.toDigits 10 m := rfl
    rw [this, decodeInt_digits _ (toDigits_isDigit m), digitsValue_toDigits]
    rfl
  | negSucc m =>
    have : (toString (Int.negSucc m)).toList = '-' :: Nat.toDigits 10 (m + 1) := rfl
    rw [this]
    simp [decodeInt, digitsValue_toDigits, Int.negSucc_eq]

theorem toString_int_injective (a b : Int) (h : toString a = toString b) : a = b := by
  have := congrArg (fun s => decodeInt s.toList) h
  simp only [decodeInt_toString] at this
  exact this

/-- `String(v) === String(d)` for an integer `d` holds exactly when `v` is
the number `d`. -/
theorem toJSString_eq_iff (v : JSId) (d : Int) :
    v.toJSString = toString d ↔ v = JSId.num d := by
  constructor
  · intro h
    cases v with
    | null =>
      have := toString_int_isDigitOrMinus d 'n' (by rw [← h]; decide)
      exact absurd this (by decide)
    | undefined =>
      have := toString_int_isDigitOrMinus d 'u' (by rw [← h]; decide)
      exact absurd this (by decide)
    | num n => rw [toString_int_injective n d h]
  · rintro rfl
    rfl

/-! ## Claims on deleting, renaming and logging out -/

theorem deleteChatLogic_rejected (s : Client) (d : Int) (hist : Fetch (List Conversation)) :
    deleteChatLogic s d .rejected hist = s.issue (.delete d) := rfl

theorem deleteChatLogic_response (s : Client) (d : Int) (ok : Bool) (json : Option Unit)
    (hist : Fetch (List Conversation)) :
    deleteChatLogic s d (.response ok json) hist
      = if s.currentConversationId = JSId.num d then
          resetToNewChatView (fetchHistoryAndRender (s.issue (.delete d)) hist)
        else fetchHistoryAndRender (s.issue (.delete d)) hist := by
  have hid := (fetchHistoryAndRender_frame (s.issue (.delete d)) hist).2.1
  have hs : (s.issue (.delete d)).currentConversationId = s.currentConversationId := rfl
  unfold deleteChatLogic deleteChatLogicTry
  simp only [hid, hs, toJSString_eq_iff]
  by_cases h : s.currentConversationId = JSId.num d
  · simp only [if_pos h]
  · simp only [if_neg h]

/-- C6, as stated, fails: the active conversation 3 is deleted while the
request is rejected, and the client still shows conversation 3 with its
entry. -/
theorem deleteChatLogic_rejected_keeps_active :
    oneEntryClient.currentConversationId = JSId.num 3
      ∧ (deleteChatLogic oneEntryClient 3 .rejected .rejected).currentConversationId
        = JSId.num 3
      ∧ (deleteChatLogic oneEntryClient 3 .rejected .rejected).chatBox
        = [messageDiv "bot" "old"] := by
  decide

/-- C6, amended: when `d` is the active conversation id and the delete
request receives a response (whatever its status), `deleteChatLogic(d)` ends
with the conversation id `null` and an empty chat box; when `d` is not the
active conversation id, and also when the request is rejected, the
conversation id, the page, both flags and the chat box are unchanged. -/
theorem deleteChatLogic_active_or_other (s : Client) (d : Int) (del : Fetch Unit)
    (hist : Fetch (List Conversation)) :
    (s.currentConversationId = JSId.num d →
        ∀ (ok : Bool) (json : Option Unit), del = .response ok json →
          (deleteChatLogic s d del hist).currentConversationId = JSId.null
            ∧ (deleteChatLogic s d del hist).chatBox = [])
      ∧ (s.currentConversationId ≠ JSId.num d ∨ del = .rejected →
          (deleteChatLogic s d del hist).currentConversationId = s.currentConversationId
            ∧ (deleteChatLogic s d del hist).currentMessagesPage = s.currentMessagesPage
            ∧ (deleteChatLogic s d del hist).hasMoreMessages = s.hasMoreMessages
            ∧ (deleteChatLogic s d del hist).isLoadingMoreMessages = s.isLoadingMoreMessages
            ∧ (deleteChatLogic s d del hist).chatBox = s.chatBox) := by
  constructor
  · intro h ok json hdel
    subst hdel
    rw [deleteChatLogic_response, if_pos h]
    exact ⟨rfl, rfl⟩
  · intro h
    rcases del with _ | ⟨ok, json⟩
    · rw [deleteChatLogic_rejected]
      exact ⟨rfl, rfl, rfl, rfl, rfl⟩
    · have hne : s.currentConversationId ≠ JSId.num d := by
        rcases h with h | h
        · exact h
        · cases h
      rw [deleteChatLogic_response, if_neg hne]
      have hf := fetchHistoryAndRender_frame (s.issue (.delete d)) hist
      exact ⟨hf.2.1, hf.2.2.1, hf.2.2.2.1, hf.2.2.2.2, hf.1⟩

/-- Witness of C6 amended: the active conversation 3 deleted with a 500
response, and another conversation, 4, deleted with a 200 response. -/
theorem deleteChatLogic_active_or_other_witness :
    (oneEntryClient.currentConversationId = JSId.num 3
        ∧ (deleteChatLogic oneEntryClient 3 (.response false none) .rejected).currentConversationId
          = JSId.null
        ∧ (deleteChatLogic oneEntryClient 3 (.response false none) .rejected).chatBox = [])
      ∧ (oneEntryClient.currentConversationId ≠ JSId.num 4
        ∧ (deleteChatLogic oneEntryClient 4 (.response true none) .rejected).chatBox
          = oneEntryClient.chatBox) :=
  ⟨⟨rfl,
    (deleteChatLogic_active_or_other oneEntryClient 3 (.response false none) .rejected).1 rfl
      false none rfl⟩,
   ⟨by decide,
    ((deleteChatLogic_active_or_other oneEntryClient 4 (.response true none) .rejected).2
      (Or.inl (by decide))).2.2.2.2⟩⟩

/-- The rename of an item whose title span is attached, committed with an
entry that is empty after trimming or equal, after trimming, to the text
taken from the title span: no request, and the item is as before the edit. -/
theorem renameItem_same_text (textOf : JSString → JSString) (id : Int) (title : TitleSpan)
    (entered : JSString) (net : Fetch Unit)
    (h : trimUnits (stripNewlines entered) = []
      ∨ trimUnits (stripNewlines entered) = stripEllipsis (title.textContent textOf)) :
    renameItem textOf (.item id title none) entered net = (.item id title none, []) := by
  unfold renameItem
  simp only [startRename, setInputValue, saveRename]
  rw [if_neg]
  rintro ⟨h1, h2⟩
  rcases h with h | h
  · exact h1 h
  · exact h2 h

/-- C7, as stated, fails: a conversation whose title has 31 characters is
renamed to that same title, and a rename request is issued. -/
theorem renameItem_long_title_requests :
    (renameItem plainText (historyItem longTitleConversation)
        (js "aaaaaaaaaaaaaaaaaaaaaaaaaaaaaaa") (.response true none)).2
      = [Request.rename 1 (js "aaaaaaaaaaaaaaaaaaaaaaaaaaaaaaa")] := by
  decide

/-- C7, amended: for every conversation (any title) and whatever text the
browser shows for its title, a rename committed with an entry that is empty
after trimming, or that after trimming equals the text taken from the
displayed title (the text content of the title span without one trailing
`...`), issues no request and leaves the history item, so its displayed
title, exactly as it was before the edit. -/
theorem renameItem_unchanged_noop (textOf : JSString → JSString) (c : Conversation)
    (entered : JSString) (net : Fetch Unit)
    (h : trimUnits (stripNewlines entered) = []
      ∨ trimUnits (stripNewlines entered) = (startRename textOf (historyItem c)).2) :
    renameItem textOf (historyItem c) entered net = (historyItem c, []) := by
  unfold historyItem at h ⊢
  exact renameItem_same_text _ _ _ _ _ h

/-- Witness of C7 amended: the conversation with the 31 character title,
committed with the 30 characters taken from its displayed title. -/
theorem renameItem_unchanged_noop_witness :
    (trimUnits (stripNewlines (js "aaaaaaaaaaaaaaaaaaaaaaaaaaaaaa")) = []
        ∨ trimUnits (stripNewlines (js "aaaaaaaaaaaaaaaaaaaaaaaaaaaaaa"))
          = (startRename plainText (historyItem longTitleConversation)).2)
      ∧ renameItem plainText (historyItem longTitleConversation)
          (js "aaaaaaaaaaaaaaaaaaaaaaaaaaaaaa") (.response true none)
        = (historyItem longTitleConversation, []) :=
  ⟨Or.inr (by decide),
   renameItem_unchanged_noop plainText longTitleConversation _ _ (Or.inr (by decide))⟩

/-- The title of sixteen U+1F600 has 32 code units: the history item shows
its first 30 code units, fifteen times U+1F600, followed by `...`. -/
theorem historyItem_emoji_title :
    historyItem emojiTitleConversation
      = .item 2 (.parsed (js "😀😀😀😀😀😀😀😀😀😀😀😀😀😀😀...")) none := by
  decide

/-- A confirmed logout whose request receives a response, whatever its
status: the conversation id is `null` and the authentication view is shown. -/
theorem logoutClick_response (s : Client) (ok : Bool) (json : Option Unit) :
    (logoutClick s true (.response ok json)).currentConversationId = JSId.null
      ∧ (logoutClick s true (.response ok json)).authDisplay = "flex"
      ∧ (logoutClick s true (.response ok json)).appDisplay = "none" :=
  ⟨rfl, rfl, rfl⟩

/-- C8, at the input where the code departs from it: a confirmed logout
whose request is rejected leaves the conversation id 3 in place and the
application view shown. -/
theorem logoutClick_rejected_keeps_state :
    (logoutClick loggedInClient true .rejected).currentConversationId = JSId.num 3
      ∧ (logoutClick loggedInClient true .rejected).appDisplay = "flex"
      ∧ (logoutClick loggedInClient true .rejected).authDisplay = "none" := by
  decide

/-- A rename with a changed, non-empty title whose request is rejected: the
title span is put back with its content unchanged. -/
theorem renameItem_rejected_reverts (textOf : JSString → JSString) (id : Int)
    (title : TitleSpan) (entered : JSString)
    (h1 : trimUnits (stripNewlines entered) ≠ [])
    (h2 : trimUnits (stripNewlines entered) ≠ stripEllipsis (title.textContent textOf)) :
    (renameItem textOf (.item id title none) entered .rejected).1 = .item id title none := by
  unfold renameItem
  simp only [startRename, setInputValue, saveRename]
  rw [if_pos ⟨h1, h2⟩]

/-- C9, at the input where the code departs from it: the title `Old` is
renamed to `New` and the server answers with a non-2xx status; the title
span then reads `New` and the input holding `New` is still in its place. -/
theorem renameItem_non_ok_shows_new_title :
    renameItem plainText (historyItem ⟨1, some (js "Old")⟩) (js "New") (.response false none)
      = (.item 1 (.text (js "New")) (some (js "New")), [Request.rename 1 (js "New")]) := by
  decide

/-! ## Claim on the completion of a page request -/

/-- A page request that failed and was not dropped leaves `hasMoreMessages`
and the children of the chat box as they were. -/
theorem fetchAndRenderMessages_failed_frame (s : Client) (chatId : JSId) (page : Nat)
    (prepend : Bool) (net : Fetch PageData) (h : s.isLoadingMoreMessages = false)
    (hf : pageRequestFailed net = true) :
    (fetchAndRenderMessages s chatId page prepend net).hasMoreMessages = s.hasMoreMessages
      ∧ (fetchAndRenderMessages s chatId page prepend net).chatBox = s.chatBox := by
  unfold fetchAndRenderMessages fetchAndRenderMessagesTry
  rcases net with _ | ⟨ok, json⟩
  · simp [h, Client.issue]
  · cases ok
    · simp [h, Client.issue]
    · rcases json with _ | ⟨messages, pagination⟩
      · simp [h, Client.issue]
      · rcases pagination with _ | hm
        · simp [h, Client.issue]
        · simp [pageRequestFailed] at hf

/-- A response that carries pagination data but a message without string
text is not a failed request in the sense of `pageRequestFailed`: the flag is
cleared, `hasMoreMessages` has the server value and the messages before the
malformed one stay rendered. -/
theorem fetchAndRenderMessages_malformed_message :
    pageRequestFailed malformedMessagePage = false
      ∧ (fetchAndRenderMessages oneEntryClient (.num 3) 1 false
          malformedMessagePage).isLoadingMoreMessages = false
      ∧ (fetchAndRenderMessages oneEntryClient (.num 3) 1 false
          malformedMessagePage).hasMoreMessages = false
      ∧ (fetchAndRenderMessages oneEntryClient (.num 3) 1 false malformedMessagePage).chatBox
        = [messageDiv "bot" "old", messageDiv "user" "a"] := by
  decide

/-- C11: for every call of `fetchAndRenderMessages` made while
`isLoadingMoreMessages` is clear and every outcome of the request, the flag
is clear again when the call completes; and when the request failed (the
`fetch` was rejected, the response was not `ok`, the body did not parse or
had no pagination data), `hasMoreMessages`, the children of the chat box and
so its message entries are as they were before the call. -/
theorem fetchAndRenderMessages_clears_flag (s : Client) (chatId : JSId) (page : Nat)
    (prepend : Bool) (net : Fetch PageData) (h : s.isLoadingMoreMessages = false) :
    (fetchAndRenderMessages s chatId page prepend net).isLoadingMoreMessages = false
      ∧ (pageRequestFailed net = true →
          (fetchAndRenderMessages s chatId page prepend net).hasMoreMessages
              = s.hasMoreMessages
            ∧ (fetchAndRenderMessages s chatId page prepend net).chatBox = s.chatBox
            ∧ transcript (fetchAndRenderMessages s chatId page prepend net) = transcript s) := by
  refine ⟨(fetchAndRenderMessages_started s chatId page prepend net h).2.1, ?_⟩
  intro hf
  have hfr := fetchAndRenderMessages_failed_frame s chatId page prepend net h hf
  refine ⟨hfr.1, hfr.2, ?_⟩
  unfold transcript
  rw [hfr.2]

/-- Witness of C11: a page request answered with a non-2xx status, made with
no other page request in flight. -/
theorem fetchAndRenderMessages_clears_flag_witness :
    oneEntryClient.isLoadingMoreMessages = false
      ∧ pageRequestFailed (.response false none) = true
      ∧ (fetchAndRenderMessages oneEntryClient (.num 3) 2 true
          (.response false none)).isLoadingMoreMessages = false
      ∧ (fetchAndRenderMessages oneEntryClient (.num 3) 2 true
          (.response false none)).hasMoreMessages = oneEntryClient.hasMoreMessages
      ∧ (fetchAndRenderMessages oneEntryClient (.num 3) 2 true
          (.response false none)).chatBox = oneEntryClient.chatBox :=
  ⟨rfl, rfl,
   (fetchAndRenderMessages_clears_flag oneEntryClient (.num 3) 2 true
     (.response false none) rfl).1,
   ((fetchAndRenderMessages_clears_flag oneEntryClient (.num 3) 2 true
     (.response false none) rfl).2 rfl).1,
   ((fetchAndRenderMessages_clears_flag oneEntryClient (.num 3) 2 true
     (.response false none) rfl).2 rfl).2.1⟩

end ChatClient
